import Mathlib

/-!
Shallow embedding of the leaderboard pipeline in `src/app1.py`
(Energy Bench Leaderboard, a Streamlit app).

Modelling conventions:
* A pandas cell is `Cell`: a string, a rational number, or `na`
  (pandas `NaN` / missing).  CSV metric cells are numeric or missing,
  so rationals stand in for floats.
* A DataFrame row is an association list `RowA` of column name to cell
  (pandas columns are unique; `getCol` takes the first match).
  A DataFrame `Df` is the ordered list of its rows.
* User interaction (which type checkboxes and which column checkboxes
  are ticked) is passed in as data: a list of selected type cells and a
  `checked : String → Bool` predicate on column names.  The presentation
  layer (st.columns layout, st.dataframe, styling) is outside the model.
* `df.sort_values(by=col, ascending=asc)` is modelled by a stable
  insertion sort on the column key with `na` ordered after every number,
  matching pandas' default `na_position='last'`.  (pandas' default
  `kind='quicksort'` does not promise a tie order; the model fixes the
  stable order.  No theorem below about tie order of `sort_values` is
  claimed beyond what this caveat allows.)
-/

/-- A pandas cell: string, numeric, or missing (`NaN`). -/
inductive Cell where
  | str (s : String)
  | num (q : ℚ)
  | na
deriving DecidableEq, Repr

/-- A DataFrame row: association list from column name to cell. -/
abbrev RowA : Type := List (String × Cell)

/-- A DataFrame: ordered list of rows. -/
abbrev Df : Type := List RowA

/-- `df[col]` for one row: the first cell stored under `col`, `na` when
the column is absent (pandas would raise `KeyError`; every use in
`app1.py` accesses an existing column). -/
def getCol (r : RowA) (col : String) : Cell :=
  match List.find? (fun p => p.1 = col) r with
  | some p => p.2
  | none => Cell.na

/-- Whether a row carries a column of the given name. -/
def hasCol (r : RowA) (col : String) : Bool :=
  (List.find? (fun p => p.1 = col) r).isSome

/-- `df["Type"] = df["Type"].fillna("Unknown")` on one row
(`src/app1.py` lines 123, 319, 387): every `na` cell stored under
`"Type"` becomes the string `"Unknown"`; other cells are unchanged. -/
def fillnaType (r : RowA) : RowA :=
  List.map
    (fun p => if p.1 = "Type" ∧ p.2 = Cell.na then ("Type", Cell.str "Unknown") else p) r

/-- Icon map of the Forecasting tab (`src/app1.py` lines 119-122). -/
def iconMapForecast : List (String × String) :=
  [("Baseline", "⚪"), ("ML/DL", "🔷"), ("Zero-shot", "🔴"),
   ("Fine-tuned", "🟣"), ("Pre-trained", "🟢"), ("Unknown", "❔")]

/-- Icon map of the Anomaly Detection tab (`src/app1.py` lines 249-252). -/
def iconMapAnomaly : List (String × String) :=
  [("Statistical", "🔶"), ("ML/DL", "🔷"), ("Zero-shot", "🔴"),
   ("Fine-tuned", "🟣"), ("Pre-trained", "🟢")]

/-- Icon map of the Classification tab (`src/app1.py` lines 316-318). -/
def iconMapClassification : List (String × String) :=
  [("ML/DL", "🔷"), ("Fine-tuned", "🟣"), ("Pre-trained", "🟢"), ("Unknown", "❔")]

/-- Icon map of the Imputation tab (`src/app1.py` lines 383-386). -/
def iconMapImputation : List (String × String) :=
  [("Baseline", "⚪"), ("ML/DL", "🔷"), ("Zero-shot", "🔴"),
   ("Fine-tuned", "🟣"), ("Unknown", "❔")]

/-- `Series.map(icon_map)` on one cell: a string found in the map goes to
its icon, anything else (unknown label, `na`) to `na`. -/
def mapIcon (m : List (String × String)) (c : Cell) : Cell :=
  match c with
  | Cell.str s =>
      match List.find? (fun p => p.1 = s) m with
      | some p => Cell.str p.2
      | none => Cell.na
  | _ => Cell.na

/-- `Series.map(icon_map).fillna("❔")`: as `mapIcon`, with `na` results
replaced by the `"❔"` icon. -/
def mapIconFillna (m : List (String × String)) (c : Cell) : Cell :=
  match mapIcon m c with
  | Cell.na => Cell.str "❔"
  | c2 => c2

/-- Forecasting tab raw-data update (`src/app1.py` lines 123-124), applied
to one row: fill absent `Type` with `"Unknown"`, then insert an `Icon`
column at position 0 mapped from `Type` with `"❔"` fallback. -/
def forecastRowUpdate (r : RowA) : RowA :=
  let r2 := fillnaType r
  ("Icon", mapIconFillna iconMapForecast (getCol r2 "Type")) :: r2

/-- `RAW_FORECASTING_DATA` after the in-place update of lines 123-124. -/
def forecastRawUpdate (df : Df) : Df :=
  List.map forecastRowUpdate df

/-- Anomaly Detection tab raw-data update (`src/app1.py` line 253), applied
to one row: insert an `Icon` column mapped from `Type`.  Note: unlike the
other three tabs there is no `fillna` on `Type` and no `fillna("❔")` on
the icon. -/
def anomalyRowUpdate (r : RowA) : RowA :=
  ("Icon", mapIcon iconMapAnomaly (getCol r "Type")) :: r

/-- `RAW_ANOMALY_DATA` after the in-place update of line 253. -/
def anomalyRawUpdate (df : Df) : Df :=
  List.map anomalyRowUpdate df

/-- Classification tab raw-data update (`src/app1.py` lines 319-320). -/
def classificationRowUpdate (r : RowA) : RowA :=
  let r2 := fillnaType r
  ("Icon", mapIconFillna iconMapClassification (getCol r2 "Type")) :: r2

/-- `RAW_CLASSIFICATION_DATA` after the in-place update of lines 319-320. -/
def classificationRawUpdate (df : Df) : Df :=
  List.map classificationRowUpdate df

/-- Imputation tab raw-data update (`src/app1.py` lines 387-388). -/
def imputationRowUpdate (r : RowA) : RowA :=
  let r2 := fillnaType r
  ("Icon", mapIconFillna iconMapImputation (getCol r2 "Type")) :: r2

/-- `RAW_IMPUTATION_DATA` after the in-place update of lines 387-388. -/
def imputationRawUpdate (df : Df) : Df :=
  List.map imputationRowUpdate df

/-- `df[df[col].isin(vals)]` (`src/app1.py` lines 140, 266, 336, 404, 424):
keep the rows whose cell under `col` occurs in `vals`.  pandas `isin` on an
object column matches `NaN` against `NaN` in the value list, which plain
cell equality reproduces. -/
def isinFilter (df : Df) (col : String) (vals : List Cell) : Df :=
  List.filter (fun r => decide (getCol r col ∈ vals)) df

/-- `column_selector(available_cols, default_cols, key_suffix)`
(`src/app1.py` lines 32-64): starts from `['Icon','Model']`, appends every
available column whose checkbox is ticked, and falls back to the defaults
only if the accumulated list were empty (it never is). -/
def column_selector (available_cols default_cols : List String)
    (checked : String → Bool) : List String :=
  let selected_cols := ["Icon", "Model"] ++ List.filter checked available_cols
  if selected_cols.isEmpty then default_cols else selected_cols

/-- `df[cols]` for one row: project it to the listed columns, in order. -/
def projectRow (cols : List String) (r : RowA) : RowA :=
  List.map (fun c => (c, getCol r c)) cols

/-- Sort key of a row for `sort_values(by=col)`: the numeric value of the
column, `none` for `NaN` (or a non-numeric cell). -/
def cellKey (r : RowA) (col : String) : Option ℚ :=
  match getCol r col with
  | Cell.num q => some q
  | _ => none

/-- Key comparison for `sort_values(ascending=asc)`: numbers by value in
the requested direction, `none` (missing) after every number
(pandas `na_position='last'`). -/
def keyLe (asc : Bool) : Option ℚ → Option ℚ → Bool
  | some a, some b => if asc then decide (a ≤ b) else decide (b ≤ a)
  | some _, none => true
  | none, some _ => false
  | none, none => true

/-- Row ordering used by the sort model. -/
def rowLe (col : String) (asc : Bool) (r s : RowA) : Prop :=
  keyLe asc (cellKey r col) (cellKey s col) = true

instance (col : String) (asc : Bool) : DecidableRel (rowLe col asc) := fun r s => by
  unfold rowLe
  infer_instance

/-- `df.sort_values(by=col, ascending=asc).reset_index(drop=True)`, as a
stable by-key sort with missing keys last (see the header caveat about
pandas' default tie order). -/
def sortValues (df : Df) (col : String) (asc : Bool) : Df :=
  List.insertionSort (rowLe col asc) df

/-- Displayed column list of the Anomaly Detection tab
(`src/app1.py` line 274): `['Icon','Model']` plus the metric columns kept
by `column_selector`, minus any repeat of `Icon`/`Model`. -/
def anomalyCols (checked : String → Bool) : List String :=
  ["Icon", "Model"] ++
    List.filter (fun c => ¬ (c = "Icon" ∨ c = "Model"))
      (column_selector ["F1-score", "Precision", "Recall"]
        ["F1-score", "Precision", "Recall"] checked)

/-- Anomaly Detection tab pipeline (`src/app1.py` lines 253-290), from the
raw dataset and the user's selections to the displayed rows: insert icons,
filter by selected types, project to the displayed columns, and sort by
`F1-score` descending when that column is displayed. -/
def anomalyRender (raw : Df) (selectedTypes : List Cell)
    (checked : String → Bool) : Df :=
  let filtered := isinFilter (anomalyRawUpdate raw) "Type" selectedTypes
  let proj := List.map (projectRow (anomalyCols checked)) filtered
  if "F1-score" ∈ anomalyCols checked then sortValues proj "F1-score" false
  else proj

/-- Type-checkbox filter stage of the Forecasting tab
(`src/app1.py` line 140), after the raw-data update of lines 123-124. -/
def forecastFiltered (raw : Df) (selectedTypes : List Cell) : Df :=
  isinFilter (forecastRawUpdate raw) "Type" selectedTypes

/-- Outcome of the Imputation tab render: either the script halts at
`st.stop()` before any table is produced, or it displays a row list. -/
inductive RenderResult where
  | halted
  | rows (out : Df)
deriving DecidableEq

/-- Displayed column list of the Imputation tab (`src/app1.py` line 437). -/
def imputationCols (checked : String → Bool) : List String :=
  ["Icon", "Model"] ++
    List.filter (fun c => ¬ (c = "Icon" ∨ c = "Model"))
      (column_selector ["Mask", "MAE", "MSE"] ["Mask", "MAE", "MSE"] checked)

/-- Imputation tab pipeline (`src/app1.py` lines 387-453): insert icons,
filter by selected types, then — if no Mask percentage is selected — warn
and `st.stop()` (no rows at all); otherwise filter by the selected Mask
values, project to the displayed columns, and sort by `MSE` ascending when
that column is displayed. -/
def imputationRender (raw : Df) (selectedTypes : List Cell)
    (selectedMasks : List Cell) (checked : String → Bool) : RenderResult :=
  let byType := isinFilter (imputationRawUpdate raw) "Type" selectedTypes
  if selectedMasks.isEmpty then RenderResult.halted
  else
    let filtered := isinFilter byType "Mask" selectedMasks
    let proj := List.map (projectRow (imputationCols checked)) filtered
    RenderResult.rows
      (if "MSE" ∈ imputationCols checked then sortValues proj "MSE" true
       else proj)

/-- Display position of each row of the rendered table, 1-indexed: after
`reset_index(drop=True)` row `i` sits at position `i + 1`.  This is the
only rank-like attribute the app produces (no rank column is ever
computed; `hide_index=True` even hides the index itself). -/
def displayPositions (df : Df) : List Nat :=
  List.map Nat.succ (List.range df.length)

instance (col : String) (asc : Bool) : IsTotal RowA (rowLe col asc) :=
  ⟨fun r s => by
    unfold rowLe
    generalize cellKey r col = a
    generalize cellKey s col = b
    cases a <;> cases b <;> cases asc <;> simp [keyLe] <;> exact le_total _ _⟩

instance (col : String) (asc : Bool) : IsTrans RowA (rowLe col asc) :=
  ⟨fun r s t hrs hst => by
    unfold rowLe at *
    revert hrs hst
    generalize cellKey r col = a
    generalize cellKey s col = b
    generalize cellKey t col = c
    intro hrs hst
    cases a <;> cases b <;> cases c <;> cases asc <;> simp [keyLe] at * <;>
      first
      | exact le_trans hrs hst
      | exact le_trans hst hrs⟩

/-! ### Concrete example data (used by the counterexamples and witnesses) -/

/-- User state with every column checkbox ticked (the default: all metric
columns are selected initially). -/
def allChecked : String → Bool := fun _ => true

/-- An anomaly-detection result row: model M1, type ML/DL, F1 0.9. -/
def exR09 : RowA := [("Model", Cell.str "M1"), ("Type", Cell.str "ML/DL"),
  ("F1-score", Cell.num (mkRat 9 10)), ("Precision", Cell.num 1), ("Recall", Cell.num 1)]

/-- A second run of the same (model, category) pair: M1, ML/DL, F1 0.7. -/
def exR07 : RowA := [("Model", Cell.str "M1"), ("Type", Cell.str "ML/DL"),
  ("F1-score", Cell.num (mkRat 7 10)), ("Precision", Cell.num 1), ("Recall", Cell.num 1)]

/-- A row for a different model M2 with F1 0.8. -/
def exR08M2 : RowA := [("Model", Cell.str "M2"), ("Type", Cell.str "ML/DL"),
  ("F1-score", Cell.num (mkRat 4 5)), ("Precision", Cell.num 1), ("Recall", Cell.num 1)]

/-- An anomaly-detection row whose Type cell is missing. -/
def exRowTNA : RowA := [("Model", Cell.str "MX"), ("Type", Cell.na),
  ("F1-score", Cell.num 1), ("Precision", Cell.num 1), ("Recall", Cell.num 1)]

/-- A raw forecasting row with a missing Type cell, before any update. -/
def exFRow : RowA := [("Model", Cell.str "A"), ("Type", Cell.na)]

/-- A raw row with a present Type cell, before any update. -/
def exFRow2 : RowA := [("Model", Cell.str "B"), ("Type", Cell.str "ML/DL")]

/-! ### Helper lemmas -/

theorem sortValues_perm (df : Df) (col : String) (asc : Bool) :
    List.Perm (sortValues df col asc) df :=
  List.perm_insertionSort (rowLe col asc) df

theorem sortValues_length (df : Df) (col : String) (asc : Bool) :
    (sortValues df col asc).length = df.length :=
  (sortValues_perm df col asc).length_eq

theorem mem_sortValues {df : Df} {col : String} {asc : Bool} {r : RowA} :
    r ∈ sortValues df col asc ↔ r ∈ df :=
  (sortValues_perm df col asc).mem_iff

theorem sortValues_sorted (df : Df) (col : String) (asc : Bool) :
    List.Sorted (rowLe col asc) (sortValues df col asc) :=
  List.sorted_insertionSort (rowLe col asc) df

theorem getCol_cons_ne {k : String} {c : Cell} {r : List (String × Cell)}
    {col : String} (h : k ≠ col) : getCol ((k, c) :: r) col = getCol r col := by
  simp [getCol, List.find?, h]

theorem hasCol_cons_ne {k : String} {c : Cell} {r : List (String × Cell)}
    {col : String} (h : k ≠ col) : hasCol ((k, c) :: r) col = hasCol r col := by
  simp [hasCol, List.find?, h]

theorem getCol_cons_self (k : String) (c : Cell) (r : List (String × Cell)) :
    getCol ((k, c) :: r) k = c := by
  simp [getCol, List.find?]

theorem getCol_fillnaType_eq (r : List (String × Cell)) :
    getCol (fillnaType r) "Type" =
      if hasCol r "Type" = true ∧ getCol r "Type" = Cell.na then
        Cell.str "Unknown"
      else getCol r "Type" := by
  induction r with
  | nil => simp [fillnaType, getCol, hasCol, List.find?]
  | cons p t ih =>
      obtain ⟨k, v⟩ := p
      by_cases hk : k = "Type"
      · subst hk
        by_cases hv : v = Cell.na
        · subst hv
          simp [fillnaType, getCol, hasCol, List.find?]
        · simp [fillnaType, getCol, hasCol, List.find?, hv]
      · have hstep : fillnaType ((k, v) :: t) = (k, v) :: fillnaType t := by
          simp [fillnaType, hk]
        rw [hstep, getCol_cons_ne hk, getCol_cons_ne hk, hasCol_cons_ne hk]
        exact ih

theorem mem_anomalyRender {raw : Df} {types : List Cell}
    {checked : String → Bool} {row : RowA} :
    row ∈ anomalyRender raw types checked ↔
      ∃ r0 ∈ isinFilter (anomalyRawUpdate raw) "Type" types,
        row = projectRow (anomalyCols checked) r0 := by
  unfold anomalyRender
  by_cases hF : "F1-score" ∈ anomalyCols checked
  · simp only [if_pos hF, mem_sortValues, List.mem_map]
    constructor
    · rintro ⟨r0, hm, hr⟩
      exact ⟨r0, hm, hr.symm⟩
    · rintro ⟨r0, hm, hr⟩
      exact ⟨r0, hm, hr.symm⟩
  · simp only [if_neg hF, List.mem_map]
    constructor
    · rintro ⟨r0, hm, hr⟩
      exact ⟨r0, hm, hr.symm⟩
    · rintro ⟨r0, hm, hr⟩
      exact ⟨r0, hm, hr.symm⟩

theorem column_selector_eq (a d : List String) (checked : String → Bool) :
    column_selector a d checked = ["Icon", "Model"] ++ List.filter checked a := by
  simp [column_selector]

theorem hasCol_projectRow2 (cols : List String) (r : RowA) (c : String) :
    hasCol (projectRow cols r) c = decide (c ∈ cols) := by
  rw [Bool.eq_iff_iff]
  simp [hasCol, projectRow, List.find?_isSome, List.mem_map]

theorem mem_anomalyCols {checked : String → Bool} {c : String}
    (h : c ∈ anomalyCols checked) :
    c ∈ ["Icon", "Model", "F1-score", "Precision", "Recall"] := by
  have sub1 : c ∈ (["Icon", "Model"] : List String) →
      c ∈ ["Icon", "Model", "F1-score", "Precision", "Recall"] := by
    intro h2
    simp only [List.mem_cons, List.not_mem_nil, or_false] at h2 ⊢
    tauto
  have sub2 : c ∈ (["F1-score", "Precision", "Recall"] : List String) →
      c ∈ ["Icon", "Model", "F1-score", "Precision", "Recall"] := by
    intro h2
    simp only [List.mem_cons, List.not_mem_nil, or_false] at h2 ⊢
    tauto
  rw [anomalyCols] at h
  rcases List.mem_append.mp h with h1 | h1
  · exact sub1 h1
  · have h2 := List.mem_of_mem_filter h1
    rw [column_selector_eq] at h2
    rcases List.mem_append.mp h2 with h3 | h3
    · exact sub1 h3
    · exact sub2 (List.mem_of_mem_filter h3)

theorem F1_mem_anomalyCols {checked : String → Bool}
    (h : checked "F1-score" = true) : "F1-score" ∈ anomalyCols checked := by
  rw [anomalyCols]
  refine List.mem_append_right _ ?_
  rw [List.mem_filter]
  refine ⟨?_, by decide⟩
  rw [column_selector_eq]
  refine List.mem_append_right _ ?_
  rw [List.mem_filter]
  exact ⟨by simp, h⟩

theorem fillnaType_absent_to_unknown (r0 : RowA)
    (hhas : hasCol r0 "Type" = true) (hna : getCol r0 "Type" = Cell.na) :
    getCol (fillnaType r0) "Type" = Cell.str "Unknown" := by
  rw [getCol_fillnaType_eq, if_pos ⟨hhas, hna⟩]

/-! ### Claim theorems -/

/-- Claim C1, counterexample.  The claim says that after the aggregation
stage no two displayed records share the same (model, category) pair.
The app has no aggregation stage: two identical input records for
(M1, ML/DL) both survive filtering, projection and sorting, so the
displayed output holds two equal records — same Model value and same
category-derived Icon (the Type column itself is projected away). -/
theorem C1_counterexample :
    (anomalyRender [exR09, exR09] [Cell.str "ML/DL"] allChecked).length = 2 ∧
    List.getD (anomalyRender [exR09, exR09] [Cell.str "ML/DL"] allChecked) 0 [] =
      List.getD (anomalyRender [exR09, exR09] [Cell.str "ML/DL"] allChecked) 1 [] ∧
    getCol (List.getD (anomalyRender [exR09, exR09] [Cell.str "ML/DL"] allChecked) 0 [])
        "Model" = Cell.str "M1" ∧
    getCol (List.getD (anomalyRender [exR09, exR09] [Cell.str "ML/DL"] allChecked) 0 [])
        "Icon" = Cell.str "🔷" := by
  decide

/-- Claim C1, amended.  The pipeline performs no (model, category)
aggregation at all: every record that passes the type filter becomes
exactly one displayed record (projection is per-row and the sort only
permutes), so duplicate (model, category) input rows remain separate
records in the displayed output. -/
theorem C1_amended (raw : Df) (types : List Cell) (checked : String → Bool) :
    (anomalyRender raw types checked).length =
      (isinFilter (anomalyRawUpdate raw) "Type" types).length := by
  unfold anomalyRender
  by_cases hF : "F1-score" ∈ anomalyCols checked
  · simp [if_pos hF, sortValues_length]
  · simp [if_neg hF]

/-- Claim C2, counterexample.  The raw datasets are not read-only: the
render itself mutates them.  A one-row raw forecasting dataset with a
missing Type differs from its state after the update at lines 123-124
(Type filled with Unknown, Icon column inserted). -/
theorem C2_counterexample : forecastRawUpdate [exFRow] ≠ [exFRow] := by
  decide

/-- Claim C2, amended.  Each render mutates the raw per-task datasets in
place: lines 123-124, 253, 319-320 and 387-388 assign a filled Type
column and insert an Icon column into the module-level DataFrames, so
for every nonempty raw dataset not yet carrying an Icon column the
stored dataset after the render differs from the one before it.  (The
script reloads the CSVs at the top of every Streamlit rerun, which is
why the repeated insert does not crash.) -/
theorem C2_amended (r : RowA) (rest : Df) (h : hasCol r "Icon" = false) :
    forecastRawUpdate (r :: rest) ≠ r :: rest ∧
    anomalyRawUpdate (r :: rest) ≠ r :: rest := by
  constructor
  · intro heq
    rw [forecastRawUpdate, List.map_cons] at heq
    injection heq with h1 _
    rw [← h1] at h
    simp [forecastRowUpdate, hasCol, List.find?] at h
  · intro heq
    rw [anomalyRawUpdate, List.map_cons] at heq
    injection heq with h1 _
    rw [← h1] at h
    simp [anomalyRowUpdate, hasCol, List.find?] at h

/-- Claim C2, witness for the amended theorem at a concrete one-row raw
dataset without an Icon column. -/
theorem C2_witness :
    hasCol exFRow2 "Icon" = false ∧
    forecastRawUpdate [exFRow2] ≠ [exFRow2] ∧
    anomalyRawUpdate [exFRow2] ≠ [exFRow2] :=
  ⟨by decide, C2_amended exFRow2 [] (by decide)⟩

/-- Claim C3, counterexample.  The spec scenario expects the duplicate
rows (M1, ML/DL, 0.9) and (M1, ML/DL, 0.7) to aggregate to the single
row (M1, ML/DL, 0.8).  The app computes no mean: the displayed output
has two rows whose metric values are the original 0.9 and 0.7, and no
displayed value equals 0.8. -/
theorem C3_counterexample :
    (anomalyRender [exR09, exR07] [Cell.str "ML/DL"] allChecked).length = 2 ∧
    List.map (fun r => getCol r "F1-score")
        (anomalyRender [exR09, exR07] [Cell.str "ML/DL"] allChecked) =
      [Cell.num (mkRat 9 10), Cell.num (mkRat 7 10)] ∧
    ¬ Cell.num (mkRat 4 5) ∈ List.map (fun r => getCol r "F1-score")
        (anomalyRender [exR09, exR07] [Cell.str "ML/DL"] allChecked) := by
  decide

/-- Claim C3, amended.  No aggregation or averaging happens anywhere in
the pipeline: the scenario input renders as exactly the two projected
input rows with their original metric values (ordered by the descending
primary-metric sort), not as one averaged row. -/
theorem C3_amended :
    anomalyRender [exR09, exR07] [Cell.str "ML/DL"] allChecked =
      [projectRow (anomalyCols allChecked) (anomalyRowUpdate exR09),
       projectRow (anomalyCols allChecked) (anomalyRowUpdate exR07)] := by
  decide

/-- Claim C4, counterexample.  The claim says competition ranks [1, 1, 3]
are assigned to primary-metric values [0.9, 0.9, 0.8].  The app computes
no rank at all: no displayed row has any Rank field (the displayed
columns are exactly Icon, Model and the metric columns), and the only
rank-like attribute — the 1-indexed display position after the sort —
is [1, 2, 3] for these values, not [1, 1, 3]. -/
theorem C4_counterexample :
    List.map (fun r => getCol r "F1-score")
        (anomalyRender [exR09, exR09, exR08M2] [Cell.str "ML/DL"] allChecked) =
      [Cell.num (mkRat 9 10), Cell.num (mkRat 9 10), Cell.num (mkRat 4 5)] ∧
    displayPositions
        (anomalyRender [exR09, exR09, exR08M2] [Cell.str "ML/DL"] allChecked) =
      [1, 2, 3] ∧
    ([1, 2, 3] : List Nat) ≠ [1, 1, 3] ∧
    List.map (fun r => List.map Prod.fst r)
        (anomalyRender [exR09, exR09, exR08M2] [Cell.str "ML/DL"] allChecked) =
      [["Icon", "Model", "F1-score", "Precision", "Recall"],
       ["Icon", "Model", "F1-score", "Precision", "Recall"],
       ["Icon", "Model", "F1-score", "Precision", "Recall"]] := by
  decide

/-- Claim C4, amended.  The engine assigns no ranks: no displayed row
carries a Rank column.  When the primary metric is among the displayed
columns the rows are ordered by the descending-metric sort, and display
positions are strictly increasing, so tied records occupy distinct
consecutive positions rather than sharing a competition rank. -/
theorem C4_amended :
    (∀ (raw : Df) (types : List Cell) (checked : String → Bool),
        checked "F1-score" = true →
        List.Sorted (rowLe "F1-score" false) (anomalyRender raw types checked)) ∧
    (∀ (raw : Df) (types : List Cell) (checked : String → Bool),
        List.Pairwise (fun a b => a < b)
          (displayPositions (anomalyRender raw types checked))) ∧
    (∀ (raw : Df) (types : List Cell) (checked : String → Bool) (row : RowA),
        row ∈ anomalyRender raw types checked → hasCol row "Rank" = false) := by
  refine ⟨?_, ?_, ?_⟩
  · intro raw types checked hF
    unfold anomalyRender
    rw [if_pos (F1_mem_anomalyCols hF)]
    exact sortValues_sorted _ _ _
  · intro raw types checked
    exact (List.pairwise_lt_range _).map Nat.succ
      (fun a b h => Nat.succ_lt_succ h)
  · intro raw types checked row hrow
    obtain ⟨r0,_, rfl⟩ := mem_anomalyRender.mp hrow
    rw [hasCol_projectRow2]
    simp only [decide_eq_false_iff_not]
    intro h
    exact absurd (mem_anomalyCols h) (by decide)

/-- Claim C4, witness for the amended theorem on the concrete
[0.9, 0.9, 0.8] scenario. -/
theorem C4_witness :
    List.Sorted (rowLe "F1-score" false)
      (anomalyRender [exR09, exR09, exR08M2] [Cell.str "ML/DL"] allChecked) ∧
    hasCol (projectRow (anomalyCols allChecked) (anomalyRowUpdate exR09))
        "Rank" = false :=
  ⟨C4_amended.1 [exR09, exR09, exR08M2] [Cell.str "ML/DL"] allChecked rfl,
   C4_amended.2.2 [exR09] [Cell.str "ML/DL"] allChecked _ (by decide)⟩

/-- Claim C5.  In every sorted output, for either direction, a record
with a missing sort-column value never precedes a record with a
non-missing one (missing keys form a suffix, i.e. sort last); and every
displayed record is the column projection of a type-filtered input
record with its cell values untouched — in particular no missing metric
value is ever replaced by 0 or folded into a mean (no mean exists). -/
theorem C5_theorem :
    (∀ (df : Df) (col : String) (asc : Bool),
        List.Pairwise (fun r s => cellKey r col = none → cellKey s col = none)
          (sortValues df col asc)) ∧
    (∀ (raw : Df) (types : List Cell) (checked : String → Bool) (row : RowA),
        row ∈ anomalyRender raw types checked →
        ∃ r0 ∈ isinFilter (anomalyRawUpdate raw) "Type" types,
          row = projectRow (anomalyCols checked) r0) := by
  constructor
  · intro df col asc
    refine (sortValues_sorted df col asc).imp ?_
    intro r s hrs hr
    cases hs : cellKey s col with
    | none => rfl
    | some b =>
        exfalso
        rw [rowLe, hr, hs] at hrs
        simp [keyLe] at hrs
  · intro raw types checked row hrow
    exact mem_anomalyRender.mp hrow

/-- Claim C5, witness at a concrete dataset and displayed row. -/
theorem C5_witness :
    List.Pairwise
      (fun r s => cellKey r "F1-score" = none → cellKey s "F1-score" = none)
      (sortValues [exR09] "F1-score" true) ∧
    ∃ r0 ∈ isinFilter (anomalyRawUpdate [exR09]) "Type" [Cell.str "ML/DL"],
      projectRow (anomalyCols allChecked) (anomalyRowUpdate exR09) =
        projectRow (anomalyCols allChecked) r0 :=
  ⟨C5_theorem.1 [exR09] "F1-score" true,
   C5_theorem.2 [exR09] [Cell.str "ML/DL"] allChecked _ (by decide)⟩

/-- Claim C7.  Filtering with an empty accepted-category set yields the
empty row sequence — for the bare `isin` filter stage on any dataset and
column, for the full anomaly pipeline, and for the forecasting filter
stage; the functions are total, so no exception and no fallback to the
full set is possible. -/
theorem C7_theorem :
    (∀ (df : Df) (col : String), isinFilter df col [] = []) ∧
    (∀ (raw : Df) (checked : String → Bool), anomalyRender raw [] checked = []) ∧
    (∀ raw : Df, forecastFiltered raw [] = []) := by
  refine ⟨?_, ?_, ?_⟩
  · intro df col
    simp [isinFilter]
  · intro raw checked
    unfold anomalyRender
    simp [isinFilter, sortValues, List.insertionSort]
  · intro raw
    simp [forecastFiltered, isinFilter]

/-- Claim C8, counterexample.  In the Anomaly Detection tab (line 253)
an input record with an absent category is NOT coerced to Unknown:
after the raw-data update its Type cell is still missing (and its icon
is missing too), contradicting the for-every-task claim. -/
theorem C8_counterexample :
    getCol (List.getD (anomalyRawUpdate [exRowTNA]) 0 []) "Type" = Cell.na ∧
    getCol (List.getD (anomalyRawUpdate [exRowTNA]) 0 []) "Type" ≠
      Cell.str "Unknown" ∧
    getCol (List.getD (anomalyRawUpdate [exRowTNA]) 0 []) "Icon" = Cell.na := by
  decide

/-- Claim C8, amended.  In the Forecasting, Classification and
Imputation tabs every input record that carries a Type column whose
value is absent receives exactly the category value Unknown during the
raw-data update, before icon assignment — so its inserted icon is the
Unknown icon ❔; the Anomaly Detection update leaves the whole Type
column exactly as loaded, so an absent category there stays absent. -/
theorem C8_amended :
    (∀ (raw : Df) (r0 : RowA), r0 ∈ raw →
        hasCol r0 "Type" = true → getCol r0 "Type" = Cell.na →
        forecastRowUpdate r0 ∈ forecastRawUpdate raw ∧
        getCol (forecastRowUpdate r0) "Type" = Cell.str "Unknown" ∧
        getCol (forecastRowUpdate r0) "Icon" = Cell.str "❔") ∧
    (∀ (raw : Df) (r0 : RowA), r0 ∈ raw →
        hasCol r0 "Type" = true → getCol r0 "Type" = Cell.na →
        classificationRowUpdate r0 ∈ classificationRawUpdate raw ∧
        getCol (classificationRowUpdate r0) "Type" = Cell.str "Unknown" ∧
        getCol (classificationRowUpdate r0) "Icon" = Cell.str "❔") ∧
    (∀ (raw : Df) (r0 : RowA), r0 ∈ raw →
        hasCol r0 "Type" = true → getCol r0 "Type" = Cell.na →
        imputationRowUpdate r0 ∈ imputationRawUpdate raw ∧
        getCol (imputationRowUpdate r0) "Type" = Cell.str "Unknown" ∧
        getCol (imputationRowUpdate r0) "Icon" = Cell.str "❔") ∧
    (∀ raw : Df,
        List.map (fun r => getCol r "Type") (anomalyRawUpdate raw) =
          List.map (fun r => getCol r "Type") raw) := by
  refine ⟨?_, ?_, ?_, ?_⟩
  · intro raw r0 hmem hhas hna
    refine ⟨List.mem_map_of_mem _ hmem, ?_, ?_⟩
    · rw [show forecastRowUpdate r0 =
            ("Icon", mapIconFillna iconMapForecast (getCol (fillnaType r0) "Type")) ::
              fillnaType r0 from rfl,
          getCol_cons_ne (by decide)]
      exact fillnaType_absent_to_unknown r0 hhas hna
    · rw [show forecastRowUpdate r0 =
            ("Icon", mapIconFillna iconMapForecast (getCol (fillnaType r0) "Type")) ::
              fillnaType r0 from rfl,
          getCol_cons_self, fillnaType_absent_to_unknown r0 hhas hna]
      decide
  · intro raw r0 hmem hhas hna
    refine ⟨List.mem_map_of_mem _ hmem, ?_, ?_⟩
    · rw [show classificationRowUpdate r0 =
            ("Icon", mapIconFillna iconMapClassification (getCol (fillnaType r0) "Type")) ::
              fillnaType r0 from rfl,
          getCol_cons_ne (by decide)]
      exact fillnaType_absent_to_unknown r0 hhas hna
    · rw [show classificationRowUpdate r0 =
            ("Icon", mapIconFillna iconMapClassification (getCol (fillnaType r0) "Type")) ::
              fillnaType r0 from rfl,
          getCol_cons_self, fillnaType_absent_to_unknown r0 hhas hna]
      decide
  · intro raw r0 hmem hhas hna
    refine ⟨List.mem_map_of_mem _ hmem, ?_, ?_⟩
    · rw [show imputationRowUpdate r0 =
            ("Icon", mapIconFillna iconMapImputation (getCol (fillnaType r0) "Type")) ::
              fillnaType r0 from rfl,
          getCol_cons_ne (by decide)]
      exact fillnaType_absent_to_unknown r0 hhas hna
    · rw [show imputationRowUpdate r0 =
            ("Icon", mapIconFillna iconMapImputation (getCol (fillnaType r0) "Type")) ::
              fillnaType r0 from rfl,
          getCol_cons_self, fillnaType_absent_to_unknown r0 hhas hna]
      decide
  · intro raw
    rw [anomalyRawUpdate, List.map_map]
    refine List.map_congr_left ?_
    intro r _
    exact getCol_cons_ne (by decide)

/-- Claim C8, witness for the amended theorem at a concrete forecasting
row with a missing Type: the update keeps it in the dataset, coerces
its Type to Unknown, and gives it the Unknown icon. -/
theorem C8_witness :
    forecastRowUpdate [("Type", Cell.na)] ∈
      forecastRawUpdate [[("Type", Cell.na)]] ∧
    getCol (forecastRowUpdate [("Type", Cell.na)]) "Type" =
      Cell.str "Unknown" ∧
    getCol (forecastRowUpdate [("Type", Cell.na)]) "Icon" = Cell.str "❔" :=
  C8_amended.1 [[("Type", Cell.na)]] [("Type", Cell.na)]
    (by decide) (by decide) (by decide)

/-- Claim C9.  For every accepted column set, `column_selector` output
contains the identity fields Icon and Model (they are seeded before any
checkbox is consulted, so they are present even when not requested),
and every displayed row of the pipeline carries Icon and Model fields. -/
theorem C9_theorem :
    (∀ (available_cols default_cols : List String) (checked : String → Bool),
        "Icon" ∈ column_selector available_cols default_cols checked ∧
        "Model" ∈ column_selector available_cols default_cols checked) ∧
    (∀ (raw : Df) (types : List Cell) (checked : String → Bool) (row : RowA),
        row ∈ anomalyRender raw types checked →
        hasCol row "Icon" = true ∧ hasCol row "Model" = true) := by
  constructor
  · intro a d checked
    rw [column_selector_eq]
    constructor
    · exact List.mem_append_left _ (by simp)
    · exact List.mem_append_left _ (by simp)
  · intro raw types checked row hrow
    obtain ⟨r0, _, rfl⟩ := mem_anomalyRender.mp hrow
    constructor <;>
      · rw [hasCol_projectRow2]
        simp [anomalyCols]

/-- Claim C9, witness: a concretely rendered row carries Icon and Model
even though the witness's point is independent of which metric columns
were requested. -/
theorem C9_witness :
    hasCol (projectRow (anomalyCols allChecked) (anomalyRowUpdate exR09))
        "Icon" = true ∧
    hasCol (projectRow (anomalyCols allChecked) (anomalyRowUpdate exR09))
        "Model" = true :=
  C9_theorem.2 [exR09] [Cell.str "ML/DL"] allChecked _ (by decide)

/-- Claim C10.  In the Imputation view an empty selected Mask set makes
the pipeline warn and halt (`st.stop()`), producing no row output at
all; by contrast an empty category selection (with some Mask selected)
flows through and renders the empty row sequence. -/
theorem C10_theorem :
    (∀ (raw : Df) (types : List Cell) (checked : String → Bool),
        imputationRender raw types [] checked = RenderResult.halted) ∧
    (∀ (raw : Df) (masks : List Cell) (checked : String → Bool),
        masks ≠ [] →
        imputationRender raw [] masks checked = RenderResult.rows []) := by
  constructor
  · intro raw types checked
    simp [imputationRender]
  · intro raw masks checked hm
    have h1 : masks.isEmpty = false := by
      simpa [List.isEmpty_iff] using hm
    simp [imputationRender, h1, isinFilter, sortValues, List.insertionSort]

/-- Claim C10, witness at a concrete dataset: empty Mask selection
halts, empty type selection with a Mask selected renders zero rows. -/
theorem C10_witness :
    imputationRender [exR09] [Cell.str "ML/DL"] [] allChecked =
      RenderResult.halted ∧
    imputationRender [exR09] [] [Cell.num 5] allChecked =
      RenderResult.rows [] :=
  ⟨C10_theorem.1 [exR09] [Cell.str "ML/DL"] allChecked,
   C10_theorem.2 [exR09] [Cell.num 5] allChecked (by decide)⟩
